import Mathlib

/-!
Shallow embedding of the chroma-rag repository.

The repository is a thin presentation layer over a remote ChromaDB HTTP
client.  The embedded parts:

* `src/src/chroma_interaction_class.py` — the connection wrapper
  (`ChromaInteractionClass`) with its `require_connection` decorator and the
  `connect` / `store_data` / `query_data` / `show_all_data` methods.
* `src/src/admin_view.py` — the button handlers of the admin view
  (single document, multiple documents, file upload, query section).
* `src/src/chroma_agent.py` — `ChromaAgent.run` and
  `ChromaAgentRunner.send_message`.

The remote ChromaDB server is reached only through the client library; the
wrapper is embedded against an abstract interface `RemoteOps σ` of the four
remote operations it uses, and a concrete executable model `Server`
(collections as association lists, plus a log of the remote calls issued)
instantiates that interface for concrete evaluation.  Python exceptions are
embedded as `Except`: a raised exception is an `.error` value.
-/

namespace ChromaRag

/-- Errors originating on the remote side (the ChromaDB server / transport). -/
inductive RemoteErr where
  | unreachable
  | rejected (msg : String)
  deriving DecidableEq, Repr

/-- A collection handle as returned by `client.get_or_create_collection`:
identified by the collection name. -/
abbrev CollectionHandle := String

/-- The shape of a ChromaDB `collection.query(...)` result that the callers in
this repository read: `results['documents']` is a list of document lists, one
per query text.  (The other keys of the chromadb result dict are never read
except `distances`, which no embedded claim depends on.) -/
structure QueryResult where
  documents : List (List String)
  deriving DecidableEq, Repr

/-- The shape of a ChromaDB `collection.get()` result that the callers read:
`ids` and `documents`. -/
structure GetResult where
  ids : List String
  documents : List String
  deriving DecidableEq, Repr

/-- The four remote operations the wrapper uses, abstract over a server state
`σ`: `client.get_or_create_collection`, `collection.add`, `collection.query`
and `collection.get`.  Each may fail for remote-side reasons. -/
structure RemoteOps (σ : Type) where
  getOrCreateCollection : σ → String → Except RemoteErr (σ × CollectionHandle)
  add : σ → CollectionHandle → List String → List String → Except RemoteErr σ
  query : σ → CollectionHandle → List String → Int → Except RemoteErr (σ × QueryResult)
  get : σ → CollectionHandle → Except RemoteErr (σ × GetResult)

/-- Exceptions a wrapper method can raise: the `ConnectionError` raised by the
`require_connection` decorator, or a remote-side failure propagated from the
client library. -/
inductive ChromaError where
  | connectionError (msg : String)
  | remote (e : RemoteErr)
  deriving DecidableEq, Repr

/-- `str(e)` for an embedded exception, as interpolated into UI messages. -/
def ChromaError.toMessage : ChromaError → String
  | .connectionError m => m
  | .remote .unreachable => "Could not connect to ChromaDB server"
  | .remote (.rejected m) => m

/-- The wrapper `ChromaInteractionClass`: fields set by `__init__`
(`name`, `host`, `port`, `collection_name`) plus the `connection` attribute,
`None` until `connect()` assigns a collection handle. -/
structure ChromaInteractionClass where
  name : String
  host : String
  port : Nat
  collection_name : String
  connection : Option CollectionHandle
  deriving DecidableEq, Repr

/-- `ChromaInteractionClass.__init__(host, port, collection_name, name)`:
records the endpoint and collection identity and sets `connection = None`. -/
def ChromaInteractionClass.init (host : String) (port : Nat)
    (collection_name : String) (name : String) : ChromaInteractionClass :=
  { name := name
    host := host
    port := port
    collection_name := collection_name
    connection := none }

/-- The `require_connection` decorator: if `self.connection` is `None` it
raises `ConnectionError(f"Not connected to collection '...'. Please call
connect() first.")`; otherwise the guarded method proceeds with the
connection. -/
def require_connection (self : ChromaInteractionClass) :
    Except ChromaError CollectionHandle :=
  match self.connection with
  | none => .error (.connectionError
      ("Not connected to collection '" ++ self.collection_name ++
        "'. Please call connect() first."))
  | some conn => .ok conn

/-- `connect()`: `self.connection = self.client.get_or_create_collection(
name=self.collection_name)`.  On success the wrapper holds the handle; on a
remote failure the exception propagates and `self.connection` keeps its old
value (the caller keeps the old wrapper). -/
def ChromaInteractionClass.connect {σ : Type} (R : RemoteOps σ)
    (self : ChromaInteractionClass) (srv : σ) :
    Except RemoteErr (ChromaInteractionClass × σ) :=
  match R.getOrCreateCollection srv self.collection_name with
  | .error e => .error e
  | .ok (srv', h) => .ok ({ self with connection := some h }, srv')

/-- The `documents` (resp. `query_texts`) argument: Python accepts a single
string or a list of strings. -/
inductive Documents where
  | single (s : String)
  | list (l : List String)
  deriving DecidableEq, Repr

/-- The `isinstance(documents, str)` normalisation: a single string becomes a
one-element list. -/
def Documents.toList : Documents → List String
  | .single s => [s]
  | .list l => l

/-! ### Python string primitives

The Python string operations the repository uses (`.lower()`, `.strip()`,
`.split(sep)`, slicing) are embedded as executable functions over the
character list of a `String`. -/

/-- Python str whitespace (as stripped by `.strip()`). -/
def isPySpace (c : Char) : Bool :=
  c == ' ' || c == '\t' || c == '\n' || c == '\r' || c == '\x0b' || c == '\x0c'

/-- Python `s.strip()`: drop leading and trailing whitespace. -/
def pyStrip (s : String) : String :=
  String.mk (((s.toList.dropWhile isPySpace).reverse.dropWhile isPySpace).reverse)

/-- Python `s.lower()`. -/
def pyLower (s : String) : String :=
  String.mk (s.toList.map Char.toLower)

/-- Python `s[:n]`: the first `n` characters. -/
def pyTake (s : String) (n : Nat) : String :=
  String.mk (s.toList.take n)

/-- Split a character list on a separator character (Python
`s.split(sep)` for a one-character separator). -/
def splitChar (sep : Char) : List Char → List (List Char)
  | [] => [[]]
  | c :: rest =>
    let r := splitChar sep rest
    if c == sep then [] :: r
    else
      match r with
      | h :: t => (c :: h) :: t
      | [] => [[c]]

/-- Python `s.split(sep)` for a one-character separator. -/
def pySplit (s : String) (sep : Char) : List String :=
  (splitChar sep s.toList).map String.mk

/-- Python `s.split(sep, 1)` for a one-character separator: at most one
split, at the first occurrence. -/
def pySplit1 (s : String) (sep : Char) : List String :=
  match splitChar sep s.toList with
  | [one] => [String.mk one]
  | h :: t => [String.mk h, String.mk (List.intercalate [sep] t)]
  | [] => []

/-- The ids generated by `store_data`: `[str(uuid.uuid4()) for _ in
documents]`, one freshly drawn identifier per document.  The draws of
`uuid.uuid4()` are embedded as a generator `gen : Nat → String` giving the
`i`-th drawn identifier. -/
def storeIds (gen : Nat → String) (documents : List String) : List String :=
  (List.range documents.length).map gen

/-- `store_data(documents)` (guarded by `require_connection`): normalises a
single string to a list, then issues one `self.connection.add(documents=...,
ids=[str(uuid.uuid4()) for _ in documents])` call.  The method assigns no
attribute of `self`, so the wrapper after the call equals the wrapper
before. -/
def ChromaInteractionClass.store_data {σ : Type} (R : RemoteOps σ)
    (gen : Nat → String) (self : ChromaInteractionClass) (srv : σ)
    (documents : Documents) :
    Except ChromaError (ChromaInteractionClass × σ) :=
  match require_connection self with
  | .error e => .error e
  | .ok conn =>
    let docs := documents.toList
    match R.add srv conn docs (storeIds gen docs) with
    | .error e => .error (.remote e)
    | .ok srv' => .ok (self, srv')

/-- `query_data(query_texts, n_results=10)` (guarded by `require_connection`):
normalises a single string to a list and issues
`self.connection.query(query_texts=..., n_results=...)`.  The default result
limit in the source is `10`. -/
def ChromaInteractionClass.query_data {σ : Type} (R : RemoteOps σ)
    (self : ChromaInteractionClass) (srv : σ) (query_texts : Documents)
    (n_results : Int := 10) :
    Except ChromaError (ChromaInteractionClass × σ × QueryResult) :=
  match require_connection self with
  | .error e => .error e
  | .ok conn =>
    match R.query srv conn query_texts.toList n_results with
    | .error e => .error (.remote e)
    | .ok (srv', res) => .ok (self, srv', res)

/-- `show_all_data()` (guarded by `require_connection`): issues
`self.connection.get()`. -/
def ChromaInteractionClass.show_all_data {σ : Type} (R : RemoteOps σ)
    (self : ChromaInteractionClass) (srv : σ) :
    Except ChromaError (ChromaInteractionClass × σ × GetResult) :=
  match require_connection self with
  | .error e => .error e
  | .ok conn =>
    match R.get srv conn with
    | .error e => .error (.remote e)
    | .ok (srv', res) => .ok (self, srv', res)

/-! ### A concrete model of the remote ChromaDB server

The server itself is outside the repository (reached over HTTP via the
`chromadb` client library).  The model below implements the four operations
with their documented chromadb semantics — `get_or_create_collection` reuses
an existing collection of that name or creates an empty one; `add` appends
`(id, document)` pairs to the named collection; `query`/`get` read it — and
additionally records every remote call in a log, so that theorems can speak
about which remote calls an operation issues.  Similarity ranking is opaque
server-side behaviour; the model returns the first `n_results` stored
documents per query text, and no claim depends on the ranking. -/

/-- One remote call, as recorded in the model server's log. -/
inductive RemoteCall where
  | getOrCreate (name : String)
  | add (collection : String) (documents : List String) (ids : List String)
  | query (collection : String) (texts : List String) (nResults : Int)
  | get (collection : String)
  deriving DecidableEq, Repr

/-- The model server: named collections holding `(id, document)` pairs, and
the log of remote calls received so far. -/
structure Server where
  collections : List (String × List (String × String))
  log : List RemoteCall
  deriving DecidableEq, Repr

/-- Model of `HttpClient.get_or_create_collection(name)`: reuse the
collection if present, otherwise create it empty.  Never fails. -/
def Server.getOrCreateCollection (srv : Server) (name : String) :
    Except RemoteErr (Server × CollectionHandle) :=
  let logged := { srv with log := srv.log ++ [RemoteCall.getOrCreate name] }
  match logged.collections.lookup name with
  | some _ => .ok (logged, name)
  | none =>
      .ok ({ logged with collections := logged.collections ++ [(name, [])] },
           name)

/-- Model of `collection.add(documents=..., ids=...)`: append the
`(id, document)` pairs to the collection. -/
def Server.addDocs (srv : Server) (h : CollectionHandle)
    (documents : List String) (ids : List String) : Except RemoteErr Server :=
  let logged := { srv with log := srv.log ++ [RemoteCall.add h documents ids] }
  match logged.collections.lookup h with
  | none => .error (.rejected ("collection " ++ h ++ " does not exist"))
  | some _ =>
      let updated := logged.collections.map
        fun p => if p.1 == h then (p.1, p.2 ++ ids.zip documents) else p
      .ok { logged with collections := updated }

/-- Model of `collection.query(query_texts=..., n_results=...)`: one result
list per query text (ranking opaque; the model returns the first `nResults`
stored documents). -/
def Server.queryDocs (srv : Server) (h : CollectionHandle)
    (texts : List String) (nResults : Int) :
    Except RemoteErr (Server × QueryResult) :=
  let logged := { srv with log := srv.log ++ [RemoteCall.query h texts nResults] }
  match logged.collections.lookup h with
  | none => .error (.rejected ("collection " ++ h ++ " does not exist"))
  | some docs =>
      .ok (logged,
           { documents := texts.map (fun _ => (docs.map Prod.snd).take nResults.toNat) })

/-- Model of `collection.get()`: all ids and documents of the collection. -/
def Server.getAll (srv : Server) (h : CollectionHandle) :
    Except RemoteErr (Server × GetResult) :=
  let logged := { srv with log := srv.log ++ [RemoteCall.get h] }
  match logged.collections.lookup h with
  | none => .error (.rejected ("collection " ++ h ++ " does not exist"))
  | some docs => .ok (logged, { ids := docs.map Prod.fst, documents := docs.map Prod.snd })

/-- The concrete instantiation of the remote interface with the model
server. -/
def chromaServer : RemoteOps Server :=
  { getOrCreateCollection := Server.getOrCreateCollection
    add := Server.addDocs
    query := Server.queryDocs
    get := Server.getAll }

/-! ### Embedding of `src/src/admin_view.py`

The Streamlit calls `st.success` / `st.error` / `st.warning` / `st.info` are
embedded as emitted UI messages; the Streamlit session state as a record.
Each button handler is a pure function from the session state, the server
state and the widget inputs to the new session state, the new server state,
the emitted messages and the list of `store_data` calls it made (with the
`documents` argument of each call). -/

/-- A message displayed by the admin view. -/
inductive UiMsg where
  | success (s : String)
  | uiError (s : String)
  | warning (s : String)
  | info (s : String)
  deriving DecidableEq, Repr

/-- The Streamlit session state used by the admin view
(`st.session_state.connected`, `.chroma_client`, `.documents_added`). -/
structure SessionState where
  connected : Bool
  chroma_client : Option ChromaInteractionClass
  documents_added : Nat
  deriving Repr

/-- The outcome of one admin-view button handler. -/
structure HandlerResult (σ : Type) where
  state : SessionState
  srv : σ
  msgs : List UiMsg
  store_calls : List Documents
  deriving Repr

/-- `str(e)` for the `AttributeError` Python raises when
`st.session_state.chroma_client` is `None` and a method is called on it. -/
def noneClientMsg (method : String) : String :=
  "'NoneType' object has no attribute '" ++ method ++ "'"

/-- `[doc.strip() for doc in content.split(chr(10)) if doc.strip()]`: one
document candidate per line, stripped, empties dropped. -/
def splitDocs (content : String) : List String :=
  ((pySplit content '\n').map pyStrip).filter (fun doc => doc ≠ "")

/-- The single-document button handler (tab 1 of `add_documents_section`):
if the text area is non-blank, try `store_data(single_doc)`, on success show
a success message and increment `documents_added` by one, on any exception
show the error and change nothing else. -/
def addSingleDoc {σ : Type} (R : RemoteOps σ) (gen : Nat → String)
    (state : SessionState) (srv : σ) (single_doc : String) : HandlerResult σ :=
  if pyStrip single_doc ≠ "" then
    match state.chroma_client with
    | none =>
        { state := state, srv := srv
          msgs := [UiMsg.uiError
            ("❌ Fehler beim Hinzufügen: " ++ noneClientMsg "store_data")]
          store_calls := [] }
    | some c =>
        match c.store_data R gen srv (Documents.single single_doc) with
        | .ok (c', srv') =>
            { state := { state with
                chroma_client := some c',
                documents_added := state.documents_added + 1 },
              srv := srv'
              msgs := [UiMsg.success "✅ Dokument erfolgreich hinzugefügt!"]
              store_calls := [Documents.single single_doc] }
        | .error e =>
            { state := state, srv := srv
              msgs := [UiMsg.uiError ("❌ Fehler beim Hinzufügen: " ++ e.toMessage)]
              store_calls := [Documents.single single_doc] }
  else
    { state := state, srv := srv
      msgs := [UiMsg.warning "⚠️ Bitte geben Sie Dokumentinhalt ein."]
      store_calls := [] }

/-- The multiple-documents button handler (tab 2 of
`add_documents_section`): split the text area into lines, and if any remain,
try `store_data(docs_list)`; on success increment `documents_added` by the
number of documents, on exception show the error and change nothing else. -/
def addMultiDocs {σ : Type} (R : RemoteOps σ) (gen : Nat → String)
    (state : SessionState) (srv : σ) (multi_docs : String) : HandlerResult σ :=
  if pyStrip multi_docs ≠ "" then
    let docs_list := splitDocs multi_docs
    if docs_list ≠ [] then
      match state.chroma_client with
      | none =>
          { state := state, srv := srv
            msgs := [UiMsg.uiError
              ("❌ Fehler beim Hinzufügen: " ++ noneClientMsg "store_data")]
            store_calls := [] }
      | some c =>
          match c.store_data R gen srv (Documents.list docs_list) with
          | .ok (c', srv') =>
              { state := { state with
                  chroma_client := some c',
                  documents_added := state.documents_added + docs_list.length },
                srv := srv'
                msgs := [UiMsg.success
                  ("✅ " ++ toString docs_list.length ++ " Dokumente erfolgreich hinzugefügt!")]
                store_calls := [Documents.list docs_list] }
          | .error e =>
              { state := state, srv := srv
                msgs := [UiMsg.uiError ("❌ Fehler beim Hinzufügen: " ++ e.toMessage)]
                store_calls := [Documents.list docs_list] }
    else
      { state := state, srv := srv
        msgs := [UiMsg.warning "⚠️ Keine gültigen Dokumente gefunden."]
        store_calls := [] }
  else
    { state := state, srv := srv
      msgs := [UiMsg.warning "⚠️ Bitte geben Sie Dokumentinhalte ein."]
      store_calls := [] }

/-- A parsed JSON value, as produced by `json.load`. -/
inductive Json where
  | str (s : String)
  | num (n : Int)
  | bool (b : Bool)
  | null
  | arr (elems : List Json)
  | obj (fields : List (String × Json))

/-- Whether the parsed value is a JSON array (`isinstance(content, list)`). -/
def Json.isArr : Json → Bool
  | .arr _ => true
  | _ => false

/-- Python `str()` of a parsed JSON value, as applied to the elements of an
uploaded array.  For scalars this is Python's spelling; nested containers are
rendered recursively in a canonical form (no embedded claim depends on the
exact spelling of a nested container). -/
def Json.pyStr : Json → String
  | .str s => s
  | .num n => toString n
  | .bool true => "True"
  | .bool false => "False"
  | .null => "None"
  | .arr elems => "[" ++ String.intercalate ", "
      (elems.attach.map (fun e => e.1.pyStr)) ++ "]"
  | .obj fields => "\x7b" ++ String.intercalate ", "
      (fields.attach.map (fun f => f.1.2.pyStr)) ++ "\x7d"
decreasing_by
  · have h := List.sizeOf_lt_of_mem e.2
    simp only [Json.arr.sizeOf_spec]
    omega
  · have h := List.sizeOf_lt_of_mem f.2
    have h2 : sizeOf (f.1.2) < sizeOf f.1 := by
      obtain ⟨⟨a, b⟩, hf⟩ := f
      simp
    simp only [Json.obj.sizeOf_spec]
    omega

/-- An uploaded file as the handler sees it: its MIME type and its content
(`json.load` may raise on malformed JSON, embedded as the `Except`). -/
inductive UploadFile where
  | textPlain (content : String)
  | applicationJson (parsed : Except String Json)
  | otherType

/-- The common tail of the file-upload handler: `if docs_list:` store the
list and increment the counter, else warn. -/
def uploadStore {σ : Type} (R : RemoteOps σ) (gen : Nat → String)
    (state : SessionState) (srv : σ) (docs_list : List String) : HandlerResult σ :=
  if docs_list ≠ [] then
    match state.chroma_client with
    | none =>
        { state := state, srv := srv
          msgs := [UiMsg.uiError
            ("❌ Fehler beim Verarbeiten der Datei: " ++ noneClientMsg "store_data")]
          store_calls := [] }
    | some c =>
        match c.store_data R gen srv (Documents.list docs_list) with
        | .ok (c', srv') =>
            { state := { state with
                chroma_client := some c',
                documents_added := state.documents_added + docs_list.length },
              srv := srv'
              msgs := [UiMsg.success
                ("✅ " ++ toString docs_list.length ++
                  " Dokumente aus Datei erfolgreich hinzugefügt!")]
              store_calls := [Documents.list docs_list] }
        | .error e =>
            { state := state, srv := srv
              msgs := [UiMsg.uiError
                ("❌ Fehler beim Verarbeiten der Datei: " ++ e.toMessage)]
              store_calls := [Documents.list docs_list] }
  else
    { state := state, srv := srv
      msgs := [UiMsg.warning "⚠️ Keine gültigen Dokumente in der Datei gefunden."]
      store_calls := [] }

/-- The file-upload button handler (tab 3 of `add_documents_section`):
a text file is split into lines; a JSON file is parsed, and a parsed value
that is not an array is rejected with an error and `return` — before any
store call; an unsupported type is likewise rejected; a `json.load`
exception is caught by the surrounding `except`. -/
def processUploadedFile {σ : Type} (R : RemoteOps σ) (gen : Nat → String)
    (state : SessionState) (srv : σ) (file : UploadFile) : HandlerResult σ :=
  match file with
  | .textPlain content => uploadStore R gen state srv (splitDocs content)
  | .applicationJson (.error e) =>
      { state := state, srv := srv
        msgs := [UiMsg.uiError ("❌ Fehler beim Verarbeiten der Datei: " ++ e)]
        store_calls := [] }
  | .applicationJson (.ok content) =>
      match content with
      | .arr elems =>
          uploadStore R gen state srv
            ((elems.map Json.pyStr).filter (fun doc => pyStrip doc ≠ ""))
      | _ =>
          { state := state, srv := srv
            msgs := [UiMsg.uiError "❌ JSON-Datei muss ein Array von Strings enthalten."]
            store_calls := [] }
  | .otherType =>
      { state := state, srv := srv
        msgs := [UiMsg.uiError "❌ Nicht unterstütztes Dateiformat."]
        store_calls := [] }

/-- The search button handler of `query_section`: the result-count widget is
`st.number_input(min_value=1, max_value=100, value=5)`, so the widget value
`n_results` satisfies `1 ≤ n_results ≤ 100`; the handler passes it to
`query_data(query_text, n_results)` unchanged.  (`results['documents'][0]`
on an empty `documents` list raises `IndexError`, caught by the handler's
`except`.) -/
def querySection {σ : Type} (R : RemoteOps σ) (state : SessionState) (srv : σ)
    (query_text : String) (n_results : Int) :
    SessionState × σ × List UiMsg :=
  if pyStrip query_text ≠ "" then
    match state.chroma_client with
    | none =>
        (state, srv,
         [UiMsg.uiError ("❌ Fehler bei der Suche: " ++ noneClientMsg "query_data")])
    | some c =>
        match c.query_data R srv (Documents.single query_text) n_results with
        | .error e =>
            (state, srv, [UiMsg.uiError ("❌ Fehler bei der Suche: " ++ e.toMessage)])
        | .ok (_, srv', results) =>
            match results.documents with
            | [] =>
                (state, srv',
                 [UiMsg.uiError "❌ Fehler bei der Suche: list index out of range"])
            | d0 :: _ =>
                if d0 ≠ [] then (state, srv', [UiMsg.info "📋 Suchergebnisse:"])
                else (state, srv', [UiMsg.info "📭 Keine Ergebnisse gefunden."])
  else
    (state, srv, [UiMsg.warning "⚠️ Bitte geben Sie eine Suchanfrage ein."])

/-! ### Embedding of `src/src/chroma_agent.py`

`types.Content` is embedded as the list of its parts' texts.  The LLM call
(`self.llm.generate_content_async`), the `ast.literal_eval` branch of
`_extract_documents` and the asyncio event-loop machinery of `send_message`
are external library behaviour, embedded as oracles (`llm`, `literal_eval`,
`loopExn`); all the repository's own control flow is embedded directly. -/

/-- `types.Content`: the texts of its parts. -/
structure Content where
  parts : List String
  deriving DecidableEq, Repr

/-- Python `str()` of a `Content` object (an opaque protobuf rendering; only
reached when a `Content` has no parts, which `ChromaAgent.run` never
produces). -/
def Content.pyStr (c : Content) : String :=
  "parts=" ++ String.intercalate "," c.parts

/-- Python `haystack.find(needle)`: index (in characters) of the first
occurrence, `none` when absent. -/
def strFindIdx (haystack needle : String) : Option Nat :=
  (List.range (haystack.length + 1)).find? fun i =>
    needle.toList.isPrefixOf (haystack.toList.drop i)

/-- Python `needle in haystack` on strings: substring containment. -/
def strContains (haystack needle : String) : Bool :=
  (strFindIdx haystack needle).isSome

/-- Python `haystack.rfind(needle)`: index of the last occurrence. -/
def strRFindIdx (haystack needle : String) : Option Nat :=
  (List.range (haystack.length + 1)).reverse.find? fun i =>
    needle.toList.isPrefixOf (haystack.toList.drop i)

/-- Python `re.findall` with pattern quote-captured-quote (`"([^"]*)"`): the
contents of successive complete pairs of double quotes.  Splitting on the
quote character, these are the odd-indexed segments that are followed by a
closing quote. -/
def findQuoted (s : String) : List String :=
  let segs := pySplit s '\"'
  (List.range segs.length).filterMap fun i =>
    if i % 2 = 1 ∧ i + 1 < segs.length then segs.get? i else none

/-- The keyword list of `_is_store_request`. -/
def store_keywords : List String := ["store", "add", "save", "hinzufügen", "speichern"]

/-- `_is_store_request(query)`: some store keyword occurs in the lower-cased
query. -/
def ChromaAgent.is_store_request (query : String) : Bool :=
  store_keywords.any fun keyword => strContains (pyLower query) keyword

/-- The keyword list of `_is_query_request`. -/
def query_keywords : List String := ["search", "find", "query", "suche", "finde"]

/-- `_is_query_request(query)`: some query keyword occurs in the lower-cased
query. -/
def ChromaAgent.is_query_request (query : String) : Bool :=
  query_keywords.any fun keyword => strContains (pyLower query) keyword

/-- The colon fallback of `_extract_documents`: everything after the first
colon, stripped, as a one-document list; otherwise no documents. -/
def colonFallback (query : String) : List String :=
  if query.toList.contains ':' then
    match pySplit1 query ':' with
    | [_, rest] => [pyStrip rest]
    | _ => []
  else []

/-- `_extract_documents(query)`: quoted strings if any; otherwise the
bracketed substring parsed by `ast.literal_eval` (embedded as the
`literal_eval` oracle, whose `some docs` is the comprehension
`[str(doc) for doc in docs_list if doc]` and whose `none` is any exception
of the `try`, which the code swallows with `pass`); otherwise the colon
fallback. -/
def ChromaAgent.extract_documents (literal_eval : String → Option (List String))
    (query : String) : List String :=
  let quoted_docs := findQuoted query
  if quoted_docs ≠ [] then quoted_docs
  else if query.toList.contains '[' ∧ query.toList.contains ']' then
    let start := (strFindIdx query "[").getD 0
    let stop := (strRFindIdx query "]").getD 0
    let list_str := String.mk ((query.toList.drop start).take (stop + 1 - start))
    match literal_eval list_str with
    | some docs => docs
    | none => colonFallback query
  else colonFallback query

/-- The keyword list of `_extract_query`. -/
def extract_query_keywords : List String :=
  ["search for", "find", "query", "suche nach", "finde"]

/-- `_extract_query(query)`: for the first keyword found in the lower-cased
query, everything after its first occurrence, stripped; otherwise the query
itself. -/
def ChromaAgent.extract_query (query : String) : String :=
  let lower_query := pyLower query
  match extract_query_keywords.findSome? (fun keyword =>
      (strFindIdx lower_query keyword).map fun i =>
        pyStrip (String.mk (query.toList.drop (i + keyword.length)))) with
  | some r => r
  | none => query

/-- The per-document lines of the "Found n relevant documents" response:
`f"Document \x7bi\x7d: \x7bdoc[:200]\x7d..."` for each document. -/
def formatFoundDocs (docs : List String) : String :=
  String.join (docs.enum.map fun p =>
    "Document " ++ toString (p.1 + 1) ++ ": " ++ pyTake p.2 200 ++ "...\n\n")

/-- The hard-coded `n_results=5` of the query branch of `ChromaAgent.run`. -/
def agent_query_n_results : Int := 5

/-- The hard-coded `n_results=3` of the context lookup in the generic branch
of `ChromaAgent.run`. -/
def agent_context_n_results : Int := 3

/-- The `ChromaAgent` fields: `name` (set to `"chroma_db_assistant"` by
`__init__`), `chroma_client`, `model_name`, `system_instructions`. -/
structure ChromaAgent where
  name : String
  chroma_client : Option ChromaInteractionClass
  model_name : String
  system_instructions : String
  deriving Repr

/-- `ChromaAgentRunner.__init__`: raises `ValueError` when `chroma_client` is
`None`, otherwise constructs the agent. -/
def ChromaAgentRunner.init (chroma_client : Option ChromaInteractionClass)
    (model : String) (instructions : String) : Except String ChromaAgent :=
  match chroma_client with
  | none => .error "chroma_client cannot be None"
  | some c =>
      .ok { name := "chroma_db_assistant", chroma_client := some c,
            model_name := model, system_instructions := instructions }

/-- The body of `ChromaAgent.run` inside its outer `try`: an `.error e` is an
exception reaching the outer `except Exception` handler (`str(e) = e`).
The store branch stores the extracted documents (a raised store exception
propagates to the outer handler); the query branch queries with
`n_results=5` (`results['documents'][0]` raises `IndexError` when the
`documents` list is empty); the generic branch looks up context with
`n_results=3` under an inner `try` that swallows any exception, then asks
the LLM, falling back to a canned text when the LLM raises. -/
def ChromaAgent.runBody {σ : Type} (R : RemoteOps σ) (gen : Nat → String)
    (llm : String → Except String String)
    (literal_eval : String → Option (List String))
    (agent : ChromaAgent) (srv : σ) (request : Content) :
    Except String (String × σ) :=
  match agent.chroma_client with
  | none => .ok ("Error: ChromaDB client is not initialized.", srv)
  | some client =>
    let user_query := match request.parts with
      | t :: _ => t
      | [] => request.pyStr
    if ChromaAgent.is_store_request user_query then
      let documents := ChromaAgent.extract_documents literal_eval user_query
      if documents ≠ [] then
        match client.store_data R gen srv (Documents.list documents) with
        | .error e => .error e.toMessage
        | .ok (_, srv') =>
            .ok ("Successfully stored " ++ toString documents.length ++
              " documents in ChromaDB.", srv')
      else .ok ("No documents found to store.", srv)
    else if ChromaAgent.is_query_request user_query then
      let q := ChromaAgent.extract_query user_query
      match client.query_data R srv (Documents.single q) agent_query_n_results with
      | .error e => .error e.toMessage
      | .ok (_, srv', results) =>
        match results.documents with
        | [] => .error "list index out of range"
        | d0 :: _ =>
          if d0 ≠ [] then
            .ok ("Found " ++ toString d0.length ++ " relevant documents:\n\n" ++
              formatFoundDocs d0, srv')
          else
            .ok ("No documents found for query: '" ++ q ++ "'", srv')
    else
      let ctx : String × σ :=
        match client.query_data R srv (Documents.single user_query)
            agent_context_n_results with
        | .error _ => ("", srv)
        | .ok (_, srv2, search_results) =>
          match search_results.documents with
          | [] => ("", srv2)
          | d0 :: _ => (if d0 ≠ [] then String.intercalate "\n" d0 else "", srv2)
      let prompt := agent.system_instructions ++ "\n\n" ++
        (if ctx.1 ≠ "" then "Context from knowledge base: " ++ ctx.1 ++ "\n\n"
         else "") ++
        "User query: " ++ user_query
      let response_text :=
        match llm prompt with
        | .ok t => t
        | .error _ =>
            "I received your message: '" ++ user_query ++
              "'. I'm a ChromaDB assistant ready to help with document storage and retrieval."
      .ok (response_text, ctx.2)

/-- `ChromaAgent.run`: the body under the outer `try/except Exception`,
producing a one-part `Content` either way. -/
def ChromaAgent.run {σ : Type} (R : RemoteOps σ) (gen : Nat → String)
    (llm : String → Except String String)
    (literal_eval : String → Option (List String))
    (agent : ChromaAgent) (srv : σ) (request : Content) : Content × σ :=
  match ChromaAgent.runBody R gen llm literal_eval agent srv request with
  | .ok (text, srv') => ({ parts := [text] }, srv')
  | .error e => ({ parts := ["Error processing request: " ++ e] }, srv)

/-- `ChromaAgentRunner.send_message(message)`: build a one-part request, run
the agent on a fresh event loop, and return `result.parts[0].text` (or
`str(result)` when there are no parts).  Its `try/except Exception` converts
any exception of the request construction or the event-loop machinery —
embedded as the `loopExn` oracle — into the `"Error processing message:"`
text. -/
def ChromaAgentRunner.send_message {σ : Type} (R : RemoteOps σ)
    (gen : Nat → String) (llm : String → Except String String)
    (literal_eval : String → Option (List String)) (loopExn : Option String)
    (agent : ChromaAgent) (srv : σ) (message : String) : String × σ :=
  match loopExn with
  | some e => ("Error processing message: " ++ e, srv)
  | none =>
    let result := ChromaAgent.run R gen llm literal_eval agent srv
      { parts := [message] }
    match result.1.parts with
    | t :: _ => (t, result.2)
    | [] => (result.1.pyStr, result.2)

/-! ### Concrete fixtures

Concrete instances used by the witness theorems, matching the default
connection parameters of the admin view (`localhost:8000`, collection
`documents`, client `admin_client`). -/

/-- A freshly constructed, unconnected wrapper. -/
def w0 : ChromaInteractionClass :=
  ChromaInteractionClass.init "localhost" 8000 "documents" "admin_client"

/-- The wrapper after a successful `connect()` against the model server. -/
def wConn : ChromaInteractionClass := { w0 with connection := some "documents" }

/-- An empty model server. -/
def srv0 : Server := { collections := [], log := [] }

/-- A model server on which the `documents` collection exists. -/
def srvC : Server := { collections := [("documents", [])], log := [] }

/-- A concrete identifier generator standing in for the `uuid.uuid4()`
draws. -/
def genC : Nat → String := fun i => "id-" ++ toString i

/-- Session state holding a connected wrapper. -/
def stC : SessionState :=
  { connected := true, chroma_client := some wConn, documents_added := 0 }

/-- Session state holding a wrapper on which `connect()` was never called. -/
def stU : SessionState :=
  { connected := true, chroma_client := some w0, documents_added := 0 }

/-- A concrete LLM oracle answering every prompt with a fixed text. -/
def llmC : String → Except String String := fun _ => .ok "generic llm reply"

/-- A concrete `ast.literal_eval` oracle that always fails to parse. -/
def litC : String → Option (List String) := fun _ => none

/-- A concrete agent over the connected wrapper. -/
def agentC : ChromaAgent :=
  { name := "chroma_db_assistant", chroma_client := some wConn,
    model_name := "gemini-2.5-flash", system_instructions := "You are helpful." }

/-- A concrete agent over a wrapper on which `connect()` was never called. -/
def agentU : ChromaAgent := { agentC with chroma_client := some w0 }

/-- The outcome of a wrapper call raised the NotConnected-kind
`ConnectionError` (so in particular the call did not silently no-op). -/
def raisesNotConnected {α : Type} : Except ChromaError α → Prop
  | .error (.connectionError _) => True
  | _ => False

/-- The outcome of a wrapper call is a success or a remote-side failure —
never the NotConnected-kind `ConnectionError`. -/
def remoteOnlyFailure {α : Type} : Except ChromaError α → Prop
  | .error (.connectionError _) => False
  | _ => True

/-- The collection list of the model server after a
`get_or_create_collection` for `name`: unchanged when the collection
exists, extended by an empty collection otherwise. -/
def connectCollections (srv : Server) (name : String) :
    List (String × List (String × String)) :=
  match srv.collections.lookup name with
  | some _ => srv.collections
  | none => srv.collections ++ [(name, [])]

/-! ## Theorems -/

/-- Looking up a key appended to an association list in which it is absent
finds the appended value. -/
theorem lookup_append_of_none {α β : Type} [BEq α] [LawfulBEq α]
    (l : List (α × β)) (a : α) (b : β) (h : l.lookup a = none) :
    (l ++ [(a, b)]).lookup a = some b := by
  induction l with
  | nil => simp [List.lookup]
  | cons p t ih =>
    obtain ⟨k, v⟩ := p
    simp only [List.lookup, List.cons_append] at h ⊢
    cases hak : a == k with
    | true => rw [hak] at h; cases h
    | false => rw [hak] at h; exact ih h

/-- C1: on every wrapper whose connection is not established, `store_data`,
`query_data` and `show_all_data` raise the NotConnected-kind
`ConnectionError` (never a silent no-op); on a wrapper produced by a
successful `connect()`, each of the three calls succeeds or fails only with
a remote-side error. -/
theorem store_query_list_require_connection {σ : Type} (R : RemoteOps σ)
    (gen : Nat → String) (w : ChromaInteractionClass) (srv srv0 : σ)
    (docs qts : Documents) (n : Int) :
    (w.connection = none →
      raisesNotConnected (w.store_data R gen srv docs) ∧
      raisesNotConnected (w.query_data R srv qts n) ∧
      raisesNotConnected (w.show_all_data R srv)) ∧
    (∀ w' srv1, w.connect R srv0 = .ok (w', srv1) →
      remoteOnlyFailure (w'.store_data R gen srv docs) ∧
      remoteOnlyFailure (w'.query_data R srv qts n) ∧
      remoteOnlyFailure (w'.show_all_data R srv)) := by
  constructor
  · intro h
    refine ⟨?_, ?_, ?_⟩ <;>
      simp [ChromaInteractionClass.store_data, ChromaInteractionClass.query_data,
        ChromaInteractionClass.show_all_data, require_connection, h,
        raisesNotConnected]
  · intro w' srv1 hc
    have hconn : ∃ hdl, w'.connection = some hdl := by
      unfold ChromaInteractionClass.connect at hc
      cases hget : R.getOrCreateCollection srv0 w.collection_name with
      | error e => rw [hget] at hc; cases hc
      | ok p =>
        rw [hget] at hc
        cases hc
        exact ⟨p.2, rfl⟩
    obtain ⟨hdl, hconn⟩ := hconn
    refine ⟨?_, ?_, ?_⟩
    · simp only [ChromaInteractionClass.store_data, require_connection, hconn]
      cases hR : R.add srv hdl docs.toList (storeIds gen docs.toList) with
      | error e => simp [hR, remoteOnlyFailure]
      | ok s => simp [hR, remoteOnlyFailure]
    · simp only [ChromaInteractionClass.query_data, require_connection, hconn]
      cases hR : R.query srv hdl qts.toList n with
      | error e => simp [hR, remoteOnlyFailure]
      | ok p => simp [hR, remoteOnlyFailure]
    · simp only [ChromaInteractionClass.show_all_data, require_connection, hconn]
      cases hR : R.get srv hdl with
      | error e => simp [hR, remoteOnlyFailure]
      | ok p => simp [hR, remoteOnlyFailure]

/-- Witness for C1: the unconnected fixture wrapper raises `ConnectionError`
on `store_data`, and the wrapper produced by a successful `connect()` can
only fail remotely. -/
theorem store_query_list_require_connection_witness :
    raisesNotConnected (w0.store_data chromaServer genC srv0 (Documents.single "a")) ∧
    remoteOnlyFailure (wConn.store_data chromaServer genC srvC (Documents.single "a")) := by
  constructor
  · exact ((store_query_list_require_connection chromaServer genC w0 srv0 srv0
      (Documents.single "a") (Documents.single "q") 10).1 rfl).1
  · exact ((store_query_list_require_connection chromaServer genC w0 srvC srv0
      (Documents.single "a") (Documents.single "q") 10).2 wConn
      { collections := [("documents", [])], log := [RemoteCall.getOrCreate "documents"] }
      rfl).1

/-- C2: a wrapper is in exactly one of the two states Unconnected
(`connection = None`) or Connected (`connection` holds a handle); a
successful `connect()` moves it to Connected; and none of `store_data`,
`query_data`, `show_all_data` ever changes the connection attribute, so a
Connected wrapper stays Connected under every subsequent operation. -/
theorem wrapper_two_state_lifecycle {σ : Type} (R : RemoteOps σ)
    (gen : Nat → String) (w : ChromaInteractionClass) (srv : σ)
    (docs qts : Documents) (n : Int) :
    (w.connection = none ∨ ∃ h, w.connection = some h) ∧
    (∀ w' srv', w.connect R srv = .ok (w', srv') → ∃ h, w'.connection = some h) ∧
    (∀ w' srv', w.store_data R gen srv docs = .ok (w', srv') →
      w'.connection = w.connection) ∧
    (∀ w' srv' res, w.query_data R srv qts n = .ok (w', srv', res) →
      w'.connection = w.connection) ∧
    (∀ w' srv' res, w.show_all_data R srv = .ok (w', srv', res) →
      w'.connection = w.connection) := by
  refine ⟨?_, ?_, ?_, ?_, ?_⟩
  · cases h : w.connection with
    | none => exact Or.inl rfl
    | some hdl => exact Or.inr ⟨hdl, rfl⟩
  · intro w' srv' h
    unfold ChromaInteractionClass.connect at h
    cases hg : R.getOrCreateCollection srv w.collection_name with
    | error e => rw [hg] at h; cases h
    | ok p => rw [hg] at h; cases h; exact ⟨p.2, rfl⟩
  · intro w' srv' h
    unfold ChromaInteractionClass.store_data at h
    cases hcn : w.connection with
    | none => simp [require_connection, hcn] at h
    | some conn =>
      simp only [require_connection, hcn] at h
      cases hR : R.add srv conn docs.toList (storeIds gen docs.toList) with
      | error e => simp [hR] at h
      | ok s => simp [hR] at h; rw [← h.1]; exact hcn
  · intro w' srv' res h
    unfold ChromaInteractionClass.query_data at h
    cases hcn : w.connection with
    | none => simp [require_connection, hcn] at h
    | some conn =>
      simp only [require_connection, hcn] at h
      cases hR : R.query srv conn qts.toList n with
      | error e => simp [hR] at h
      | ok p => simp [hR] at h; rw [← h.1]; exact hcn
  · intro w' srv' res h
    unfold ChromaInteractionClass.show_all_data at h
    cases hcn : w.connection with
    | none => simp [require_connection, hcn] at h
    | some conn =>
      simp only [require_connection, hcn] at h
      cases hR : R.get srv conn with
      | error e => simp [hR] at h
      | ok p => simp [hR] at h; rw [← h.1]; exact hcn

/-- Witness for C2: the fixture wrapper is in one of the two states; the
concrete `connect()` lands in Connected; a concrete `store_data` leaves the
connection attribute unchanged. -/
theorem wrapper_two_state_lifecycle_witness :
    (w0.connection = none ∨ ∃ h, w0.connection = some h) ∧
    (∃ h, wConn.connection = some h) ∧
    wConn.connection = wConn.connection := by
  refine ⟨(wrapper_two_state_lifecycle chromaServer genC w0 srv0
      (Documents.single "a") (Documents.single "q") 10).1, ?_, ?_⟩
  · exact (wrapper_two_state_lifecycle chromaServer genC w0 srv0
      (Documents.single "a") (Documents.single "q") 10).2.1 wConn
      { collections := [("documents", [])], log := [RemoteCall.getOrCreate "documents"] }
      rfl
  · exact (wrapper_two_state_lifecycle chromaServer genC wConn srvC
      (Documents.single "a") (Documents.single "q") 10).2.2.1 wConn
      { collections := [("documents", [("id-0", "a")])],
        log := [RemoteCall.add "documents" ["a"] ["id-0"]] }
      rfl

/-- C10: every operation leaves the connection identity fixed — `__init__`
alone sets `host`, `port`, `collection_name`, `name` (and starts
unconnected); `connect()` changes none of them; `store_data`, `query_data`
and `show_all_data` change no field of the wrapper at all. -/
theorem operations_preserve_connection_identity {σ : Type} (R : RemoteOps σ)
    (gen : Nat → String) (host : String) (port : Nat) (cn nm : String)
    (w : ChromaInteractionClass) (srv : σ) (docs qts : Documents) (n : Int) :
    ((ChromaInteractionClass.init host port cn nm).host = host ∧
     (ChromaInteractionClass.init host port cn nm).port = port ∧
     (ChromaInteractionClass.init host port cn nm).collection_name = cn ∧
     (ChromaInteractionClass.init host port cn nm).name = nm ∧
     (ChromaInteractionClass.init host port cn nm).connection = none) ∧
    (∀ w' srv', w.connect R srv = .ok (w', srv') →
      w'.host = w.host ∧ w'.port = w.port ∧
      w'.collection_name = w.collection_name ∧ w'.name = w.name) ∧
    (∀ w' srv', w.store_data R gen srv docs = .ok (w', srv') → w' = w) ∧
    (∀ w' srv' res, w.query_data R srv qts n = .ok (w', srv', res) → w' = w) ∧
    (∀ w' srv' res, w.show_all_data R srv = .ok (w', srv', res) → w' = w) := by
  refine ⟨⟨rfl, rfl, rfl, rfl, rfl⟩, ?_, ?_, ?_, ?_⟩
  · intro w' srv' h
    unfold ChromaInteractionClass.connect at h
    cases hg : R.getOrCreateCollection srv w.collection_name with
    | error e => rw [hg] at h; cases h
    | ok p => rw [hg] at h; cases h; exact ⟨rfl, rfl, rfl, rfl⟩
  · intro w' srv' h
    unfold ChromaInteractionClass.store_data at h
    cases hcn : w.connection with
    | none => simp [require_connection, hcn] at h
    | some conn =>
      simp only [require_connection, hcn] at h
      cases hR : R.add srv conn docs.toList (storeIds gen docs.toList) with
      | error e => simp [hR] at h
      | ok s => simp [hR] at h; exact h.1.symm
  · intro w' srv' res h
    unfold ChromaInteractionClass.query_data at h
    cases hcn : w.connection with
    | none => simp [require_connection, hcn] at h
    | some conn =>
      simp only [require_connection, hcn] at h
      cases hR : R.query srv conn qts.toList n with
      | error e => simp [hR] at h
      | ok p => simp [hR] at h; exact h.1.symm
  · intro w' srv' res h
    unfold ChromaInteractionClass.show_all_data at h
    cases hcn : w.connection with
    | none => simp [require_connection, hcn] at h
    | some conn =>
      simp only [require_connection, hcn] at h
      cases hR : R.get srv conn with
      | error e => simp [hR] at h
      | ok p => simp [hR] at h; exact h.1.symm

/-- Witness for C10: the fixture construction sets the fields; the concrete
`connect()` preserves them; a concrete `query_data` returns the wrapper
unchanged. -/
theorem operations_preserve_connection_identity_witness :
    (w0.host = "localhost" ∧ w0.port = 8000 ∧ w0.collection_name = "documents" ∧
      w0.name = "admin_client" ∧ w0.connection = none) ∧
    (wConn.host = w0.host ∧ wConn.port = w0.port ∧
      wConn.collection_name = w0.collection_name ∧ wConn.name = w0.name) ∧
    wConn = wConn := by
  refine ⟨(operations_preserve_connection_identity chromaServer genC "localhost"
      8000 "documents" "admin_client" w0 srv0
      (Documents.single "a") (Documents.single "q") 10).1, ?_, ?_⟩
  · exact (operations_preserve_connection_identity chromaServer genC "localhost"
      8000 "documents" "admin_client" w0 srv0
      (Documents.single "a") (Documents.single "q") 10).2.1 wConn
      { collections := [("documents", [])], log := [RemoteCall.getOrCreate "documents"] }
      rfl
  · exact (operations_preserve_connection_identity chromaServer genC "localhost"
      8000 "documents" "admin_client" wConn srvC
      (Documents.single "a") (Documents.single "q") 10).2.2.2.1 wConn
      { collections := [("documents", [])], log := [RemoteCall.query "documents" ["q"] 10] }
      { documents := [[]] }
      rfl

/-- A successful `Server.addDocs` appends exactly one `add` call, carrying
the whole batch, to the model server's log. -/
theorem addDocs_log (srv : Server) (hdl : CollectionHandle)
    (documents ids : List String) (srv' : Server)
    (h : Server.addDocs srv hdl documents ids = .ok srv') :
    srv'.log = srv.log ++ [RemoteCall.add hdl documents ids] := by
  unfold Server.addDocs at h
  cases hl : srv.collections.lookup hdl with
  | none => simp [hl] at h
  | some docs0 =>
    simp only [hl] at h
    cases h
    rfl

/-- C4: `store_data` accepts a single document string (stored as exactly one
document) or a sequence of document strings; it generates exactly one fresh
identifier per document (the caller supplies none), the identifiers are
pairwise distinct whenever the underlying draws are, and all documents are
persisted in one single batched remote `add` call. -/
theorem store_data_fresh_ids_single_batch (gen : Nat → String)
    (w : ChromaInteractionClass) (hdl : CollectionHandle) (srv : Server)
    (docs : Documents)
    (hc : w.connection = some hdl)
    (hinj : ∀ i, i < docs.toList.length → ∀ j, j < docs.toList.length →
      gen i = gen j → i = j) :
    (∀ s, (Documents.single s).toList = [s]) ∧
    (storeIds gen docs.toList).length = docs.toList.length ∧
    (storeIds gen docs.toList).Nodup ∧
    (∀ w' srv', w.store_data chromaServer gen srv docs = .ok (w', srv') →
      srv'.log = srv.log ++ [RemoteCall.add hdl docs.toList (storeIds gen docs.toList)]) := by
  refine ⟨fun s => rfl, by simp [storeIds], ?_, ?_⟩
  · exact List.Nodup.map_on
      (fun i hi j hj hgen =>
        hinj i (List.mem_range.mp hi) j (List.mem_range.mp hj) hgen)
      (List.nodup_range _)
  · intro w' srv' h
    unfold ChromaInteractionClass.store_data at h
    simp only [require_connection, hc, chromaServer] at h
    cases hA : Server.addDocs srv hdl docs.toList (storeIds gen docs.toList) with
    | error e => rw [hA] at h; cases h
    | ok s =>
      rw [hA] at h
      cases h
      exact addDocs_log srv hdl docs.toList (storeIds gen docs.toList) srv' hA

/-- Witness for C4 at the two-document batch `["a", "b"]` on the connected
fixture wrapper: two identifiers are generated, they are distinct, and the
store issues the one batched `add` call. -/
theorem store_data_fresh_ids_single_batch_witness :
    (storeIds genC ["a", "b"]).length = 2 ∧
    (storeIds genC ["a", "b"]).Nodup ∧
    ({ collections := [("documents", [("id-0", "a"), ("id-1", "b")])],
       log := [RemoteCall.add "documents" ["a", "b"] ["id-0", "id-1"]] : Server }).log =
      srvC.log ++ [RemoteCall.add "documents" ["a", "b"] ["id-0", "id-1"]] := by
  refine ⟨?_, ?_, ?_⟩
  · exact (store_data_fresh_ids_single_batch genC wConn "documents" srvC
      (Documents.list ["a", "b"]) rfl (by decide)).2.1
  · exact (store_data_fresh_ids_single_batch genC wConn "documents" srvC
      (Documents.list ["a", "b"]) rfl (by decide)).2.2.1
  · exact (store_data_fresh_ids_single_batch genC wConn "documents" srvC
      (Documents.list ["a", "b"]) rfl (by decide)).2.2.2 wConn
      { collections := [("documents", [("id-0", "a"), ("id-1", "b")])],
        log := [RemoteCall.add "documents" ["a", "b"] ["id-0", "id-1"]] }
      rfl

/-- Evaluation of `connect()` against the model server: it always succeeds,
sets the wrapper's connection to the collection handle, logs the
`get_or_create_collection` call, and gets-or-creates the collection. -/
theorem connect_model (w : ChromaInteractionClass) (srv : Server) :
    w.connect chromaServer srv =
      .ok ({ w with connection := some w.collection_name },
        { collections := connectCollections srv w.collection_name,
          log := srv.log ++ [RemoteCall.getOrCreate w.collection_name] }) := by
  unfold ChromaInteractionClass.connect
  simp only [chromaServer]
  unfold Server.getOrCreateCollection connectCollections
  cases hl : srv.collections.lookup w.collection_name <;> simp [hl]

/-- C5: `connect()` is idempotent on the model server — the first call
succeeds and gets-or-creates the named collection, and a second call in
sequence succeeds as well, produces no duplicate collection (the collection
list is unchanged) and leaves the wrapper as it was. -/
theorem connect_idempotent (w : ChromaInteractionClass) (srv : Server) :
    ∃ w1 srv1 w2 srv2,
      w.connect chromaServer srv = .ok (w1, srv1) ∧
      w1.connect chromaServer srv1 = .ok (w2, srv2) ∧
      srv2.collections = srv1.collections ∧ w2 = w1 := by
  have hlk : ∃ d, (connectCollections srv w.collection_name).lookup
      w.collection_name = some d := by
    unfold connectCollections
    cases hl : srv.collections.lookup w.collection_name with
    | some d => exact ⟨d, by simp [hl]⟩
    | none =>
      exact ⟨[], by
        simp only [hl]
        exact lookup_append_of_none srv.collections w.collection_name [] hl⟩
  obtain ⟨d, hd⟩ := hlk
  refine ⟨_, _, _, _, connect_model w srv, connect_model _ _, ?_, rfl⟩
  simp only [connectCollections] at hd ⊢
  rw [hd]

/-- C6: the result-count limit of `query_data` defaults to the
wrapper-defined value `10` (a positive integer), is overridable by the
caller — whatever limit the caller passes is the one handed to the remote
query — and every caller in the repository passes a positive limit: the
admin view passes the search widget's value, which its bounds confine to
`1 ≤ n ≤ 100`, and the agent's two hard-coded limits are `5` and `3`. -/
theorem query_limit_default_positive_overridable :
    ((0 : Int) < 10 ∧
      ∀ (σ : Type) (R : RemoteOps σ) (w : ChromaInteractionClass) (srv : σ)
        (q : Documents), w.query_data R srv q = w.query_data R srv q 10) ∧
    (∀ (w : ChromaInteractionClass) (hdl : CollectionHandle) (srv : Server)
        (q : Documents) (n : Int) (w' : ChromaInteractionClass) (srv' : Server)
        (res : QueryResult),
      w.connection = some hdl →
      w.query_data chromaServer srv q n = .ok (w', srv', res) →
      srv'.log = srv.log ++ [RemoteCall.query hdl q.toList n]) ∧
    (∀ (qt : String) (n : Int), 1 ≤ n → n ≤ 100 → pyStrip qt ≠ "" →
      0 < n ∧ (querySection chromaServer stC srvC qt n).2.1.log =
        [RemoteCall.query "documents" [qt] n]) ∧
    (0 < agent_query_n_results ∧ 0 < agent_context_n_results) := by
  refine ⟨⟨by norm_num, fun σ R w srv q => rfl⟩, ?_, ?_, ?_⟩
  · intro w hdl srv q n w' srv' res hc h
    unfold ChromaInteractionClass.query_data at h
    simp only [require_connection, hc, chromaServer] at h
    unfold Server.queryDocs at h
    cases hl : srv.collections.lookup hdl with
    | none => simp [hl] at h
    | some docs0 =>
      simp only [hl] at h
      cases h
      rfl
  · intro qt n h1 h100 hqt
    have hlk : List.lookup "documents"
        ([("documents", [])] : List (String × List (String × String))) =
        some [] := rfl
    refine ⟨by omega, ?_⟩
    simp [querySection, hqt, stC, wConn, w0, ChromaInteractionClass.init,
      ChromaInteractionClass.query_data, require_connection, chromaServer,
      Server.queryDocs, srvC, Documents.toList, hlk]
  · constructor
    · simp [agent_query_n_results]
    · simp [agent_context_n_results]

/-- Witness for C6 at the concrete search `"foo"` with the widget value `5`:
the limit is positive and is passed through to the remote query call. -/
theorem query_limit_default_positive_overridable_witness :
    (0 : Int) < 10 ∧
    (0 < (5 : Int) ∧ (querySection chromaServer stC srvC "foo" 5).2.1.log =
      [RemoteCall.query "documents" ["foo"] 5]) ∧
    (0 < agent_query_n_results ∧ 0 < agent_context_n_results) :=
  ⟨query_limit_default_positive_overridable.1.1,
   query_limit_default_positive_overridable.2.2.1 "foo" 5 (by norm_num)
     (by norm_num) (by decide),
   query_limit_default_positive_overridable.2.2.2⟩

/-- C7: a JSON upload whose parsed body is not an array is rejected by the
upload handler with an error message and an early return — no `store_data`
call is made, and the session state and the server are left unchanged. -/
theorem non_array_json_upload_rejected {σ : Type} (R : RemoteOps σ)
    (gen : Nat → String) (state : SessionState) (srv : σ) (j : Json)
    (hj : j.isArr = false) :
    (processUploadedFile R gen state srv
        (UploadFile.applicationJson (.ok j))).store_calls = [] ∧
    (processUploadedFile R gen state srv
        (UploadFile.applicationJson (.ok j))).state = state ∧
    (processUploadedFile R gen state srv
        (UploadFile.applicationJson (.ok j))).srv = srv ∧
    (processUploadedFile R gen state srv
        (UploadFile.applicationJson (.ok j))).msgs =
      [UiMsg.uiError "❌ JSON-Datei muss ein Array von Strings enthalten."] := by
  cases j with
  | arr elems => cases hj
  | str s => exact ⟨rfl, rfl, rfl, rfl⟩
  | num n => exact ⟨rfl, rfl, rfl, rfl⟩
  | bool b => exact ⟨rfl, rfl, rfl, rfl⟩
  | null => exact ⟨rfl, rfl, rfl, rfl⟩
  | obj fields => exact ⟨rfl, rfl, rfl, rfl⟩

/-- Witness for C7 at the upload body of the spec's scenario, the JSON
object with key "not" and value "a list". -/
theorem non_array_json_upload_rejected_witness :
    (processUploadedFile chromaServer genC stC srvC
        (UploadFile.applicationJson
          (.ok (Json.obj [("not", Json.str "a list")])))).store_calls = [] ∧
    (processUploadedFile chromaServer genC stC srvC
        (UploadFile.applicationJson
          (.ok (Json.obj [("not", Json.str "a list")])))).state = stC ∧
    (processUploadedFile chromaServer genC stC srvC
        (UploadFile.applicationJson
          (.ok (Json.obj [("not", Json.str "a list")])))).srv = srvC ∧
    (processUploadedFile chromaServer genC stC srvC
        (UploadFile.applicationJson
          (.ok (Json.obj [("not", Json.str "a list")])))).msgs =
      [UiMsg.uiError "❌ JSON-Datei muss ein Array von Strings enthalten."] :=
  non_array_json_upload_rejected chromaServer genC stC srvC
    (Json.obj [("not", Json.str "a list")]) rfl

/-- C8: the admin view's document-adding handlers catch a raising
`store_data` at the point of the user action: on failure they emit only the
error message and leave the session state (in particular the
`documents_added` counter) and the server unchanged, returning normally; the
counter is incremented only after a `store_data` call succeeds (by one for
the single-document handler, by the batch size for the multi-document
handler). -/
theorem store_failure_leaves_ui_state_unchanged {σ : Type} (R : RemoteOps σ)
    (gen : Nat → String) (state : SessionState) (srv : σ)
    (w : ChromaInteractionClass) (single_doc multi_docs : String)
    (hw : state.chroma_client = some w) :
    (∀ e, pyStrip single_doc ≠ "" →
      w.store_data R gen srv (Documents.single single_doc) = .error e →
      addSingleDoc R gen state srv single_doc =
        { state := state, srv := srv,
          msgs := [UiMsg.uiError ("❌ Fehler beim Hinzufügen: " ++ e.toMessage)],
          store_calls := [Documents.single single_doc] }) ∧
    (∀ w' srv', pyStrip single_doc ≠ "" →
      w.store_data R gen srv (Documents.single single_doc) = .ok (w', srv') →
      (addSingleDoc R gen state srv single_doc).state.documents_added =
        state.documents_added + 1) ∧
    (∀ e, pyStrip multi_docs ≠ "" → splitDocs multi_docs ≠ [] →
      w.store_data R gen srv (Documents.list (splitDocs multi_docs)) = .error e →
      addMultiDocs R gen state srv multi_docs =
        { state := state, srv := srv,
          msgs := [UiMsg.uiError ("❌ Fehler beim Hinzufügen: " ++ e.toMessage)],
          store_calls := [Documents.list (splitDocs multi_docs)] }) ∧
    (∀ w' srv', pyStrip multi_docs ≠ "" → splitDocs multi_docs ≠ [] →
      w.store_data R gen srv (Documents.list (splitDocs multi_docs)) = .ok (w', srv') →
      (addMultiDocs R gen state srv multi_docs).state.documents_added =
        state.documents_added + (splitDocs multi_docs).length) := by
  refine ⟨?_, ?_, ?_, ?_⟩
  · intro e hne hst
    simp [addSingleDoc, hne, hw, hst]
  · intro w' srv' hne hst
    simp [addSingleDoc, hne, hw, hst]
  · intro e hne hdocs hst
    simp [addMultiDocs, hne, hdocs, hw, hst]
  · intro w' srv' hne hdocs hst
    simp [addMultiDocs, hne, hdocs, hw, hst]

/-- Witness for C8: on the fixture session holding an unconnected wrapper
the single-document store raises and the handler leaves the counter at 0;
on the connected fixture session it succeeds and the counter becomes 1. -/
theorem store_failure_leaves_ui_state_unchanged_witness :
    addSingleDoc chromaServer genC stU srv0 "doc" =
      { state := stU, srv := srv0,
        msgs := [UiMsg.uiError ("❌ Fehler beim Hinzufügen: " ++
          (ChromaError.connectionError
            "Not connected to collection 'documents'. Please call connect() first.").toMessage)],
        store_calls := [Documents.single "doc"] } ∧
    (addSingleDoc chromaServer genC stC srvC "doc").state.documents_added =
      stC.documents_added + 1 := by
  constructor
  · exact (store_failure_leaves_ui_state_unchanged chromaServer genC stU srv0
      w0 "doc" "d1\nd2" rfl).1
      (ChromaError.connectionError
        "Not connected to collection 'documents'. Please call connect() first.")
      (by decide) rfl
  · exact (store_failure_leaves_ui_state_unchanged chromaServer genC stC srvC
      wConn "doc" "d1\nd2" rfl).2.1 wConn
      { collections := [("documents", [("id-0", "doc")])],
        log := [RemoteCall.add "documents" ["doc"] ["id-0"]] }
      (by decide) rfl

/-- C9: `send_message` always returns a string and never propagates an
exception: an exception of the request construction or event-loop machinery
(the `loopExn` oracle) is converted to the `"Error processing message:"`
text, an exception escaping the body of `ChromaAgent.run` is converted by
`run` itself to the `"Error processing request:"` text, and a normal body
result is returned as the response text. -/
theorem send_message_total_converts_exceptions {σ : Type} (R : RemoteOps σ)
    (gen : Nat → String) (llm : String → Except String String)
    (literal_eval : String → Option (List String)) (loopExn : Option String)
    (agent : ChromaAgent) (srv : σ) (message : String) :
    (∀ e, loopExn = some e →
      (ChromaAgentRunner.send_message R gen llm literal_eval loopExn agent srv
        message).1 = "Error processing message: " ++ e) ∧
    (∀ e, loopExn = none →
      ChromaAgent.runBody R gen llm literal_eval agent srv
        { parts := [message] } = .error e →
      (ChromaAgentRunner.send_message R gen llm literal_eval loopExn agent srv
        message).1 = "Error processing request: " ++ e) ∧
    (∀ t srv', loopExn = none →
      ChromaAgent.runBody R gen llm literal_eval agent srv
        { parts := [message] } = .ok (t, srv') →
      ChromaAgentRunner.send_message R gen llm literal_eval loopExn agent srv
        message = (t, srv')) := by
  refine ⟨?_, ?_, ?_⟩
  · intro e he
    subst he
    rfl
  · intro e hl hb
    subst hl
    simp [ChromaAgentRunner.send_message, ChromaAgent.run, hb]
  · intro t srv' hl hb
    subst hl
    simp [ChromaAgentRunner.send_message, ChromaAgent.run, hb]

/-- Witness for C9: a concrete event-loop exception is converted to the
message error text, and a concrete exception inside `run` (a query request
on an unconnected wrapper) is converted to the request error text. -/
theorem send_message_total_converts_exceptions_witness :
    (ChromaAgentRunner.send_message chromaServer genC llmC litC (some "boom")
        agentC srvC "hi").1 = "Error processing message: " ++ "boom" ∧
    (ChromaAgentRunner.send_message chromaServer genC llmC litC none agentU
        srvC "find cats").1 = "Error processing request: " ++
      "Not connected to collection 'documents'. Please call connect() first." := by
  constructor
  · exact (send_message_total_converts_exceptions chromaServer genC llmC litC
      (some "boom") agentC srvC "hi").1 "boom" rfl
  · exact (send_message_total_converts_exceptions chromaServer genC llmC litC
      none agentU srvC "find cats").2.1
      "Not connected to collection 'documents'. Please call connect() first."
      rfl rfl

/-- C3: evidence for the divergence between the documented agent tool
surface and the code.  The only operation the agent exposes is
`send_message` on free text: no `store_documents` or `query_documents`
callable exists in `chroma_agent.py`; messages are routed by keyword
matching inside `ChromaAgent.run`.  Evaluating the surface at the free-text
message "hello" (matching no keyword): the returned value is the raw LLM
text — no tri-state status accompanies it — and the only remote call issued
is `run`'s internal context lookup with the hard-coded limit `3`. -/
theorem agent_surface_is_free_text_keyword_routing :
    (ChromaAgentRunner.send_message chromaServer genC llmC litC none agentC
        srvC "hello").1 = "generic llm reply" ∧
    (ChromaAgentRunner.send_message chromaServer genC llmC litC none agentC
        srvC "hello").2.log =
      [RemoteCall.query "documents" ["hello"] agent_context_n_results] := by
  constructor
  · decide
  · decide

end ChromaRag
